import Mathlib

/-!
Shallow embedding of the Windows file-event watcher of native-platform
(`src/main/cpp/win_fsnotifier.cpp`) and proofs about it.

Paths are modelled as lists of UTF-16 code units (`List Nat`); the wide
character `'\\'` is code unit 92.  Machine-level concerns (handles, JNI
marshalling, the actual overlapped buffer layout) are abstracted: a buffer
of `FILE_NOTIFY_INFORMATION` records walked via `NextEntryOffset` becomes a
`List FileNotifyInfo`, and the side effects of the event handler (calls to
`Server::reportEvent`, `Server::reportFinished`, re-arming the read) are
made explicit in result structures.
-/

namespace WinFsNotifier

/-- Windows API constant `FILE_ACTION_ADDED` (winnt.h). -/
def FILE_ACTION_ADDED : Nat := 1

/-- Windows API constant `FILE_ACTION_REMOVED` (winnt.h). -/
def FILE_ACTION_REMOVED : Nat := 2

/-- Windows API constant `FILE_ACTION_MODIFIED` (winnt.h). -/
def FILE_ACTION_MODIFIED : Nat := 3

/-- Windows API constant `FILE_ACTION_RENAMED_OLD_NAME` (winnt.h). -/
def FILE_ACTION_RENAMED_OLD_NAME : Nat := 4

/-- Windows API constant `FILE_ACTION_RENAMED_NEW_NAME` (winnt.h). -/
def FILE_ACTION_RENAMED_NEW_NAME : Nat := 5

/-- Windows API constant `ERROR_OPERATION_ABORTED` (winerror.h). -/
def ERROR_OPERATION_ABORTED : Nat := 995

/-- The UTF-16 code unit of the backslash path separator. -/
def backslash : Nat := 92

/-- Modelled from the spec: the normalized event-type constants
`FILE_EVENT_CREATED`, `FILE_EVENT_REMOVED`, `FILE_EVENT_MODIFIED`,
`FILE_EVENT_INVALIDATE`, `FILE_EVENT_UNKNOWN` are declared in the header
`win_fsnotifier.h`, which is not part of the sources; only their identity
matters here, so they are modelled as a closed enumeration matching the
spec's ChangeType vocabulary. -/
inductive FileEventType where
  | created
  | removed
  | modified
  | invalidate
  | unknown
deriving Repr, DecidableEq

/-- The WatchPoint lifecycle status values `WATCH_UNINITIALIZED`,
`WATCH_LISTENING`, `WATCH_NOT_LISTENING`, `WATCH_FAILED_TO_LISTEN`,
`WATCH_FINISHED` of `win_fsnotifier.h` (`uninit` models
the first of these). -/
inductive WatchStatus where
  | uninit
  | listening
  | notListening
  | failedToListen
  | finished
deriving Repr, DecidableEq

/-- One `FILE_NOTIFY_INFORMATION` record of the completion buffer:
its `Action` code and its `FileName` (already split into
`FileNameLength / sizeof(wchar_t)` UTF-16 code units). -/
structure FileNotifyInfo where
  action : Nat
  fileName : List Nat
deriving Repr, DecidableEq

/-- The path `WatchPoint::handlePathChanged` builds from a record:
`changedPath` starts as the record's file name; if it is non-empty the
code inserts `'\\'` and then the watched root at the front, yielding
`path ++ '\\' ++ fileName`; an empty file name is left empty. -/
def changedPathOf (path : List Nat) (fileName : List Nat) : List Nat :=
  if fileName = [] then [] else path ++ backslash :: fileName

/-- The action-code normalization of `WatchPoint::handlePathChanged`
(the if/else-if chain on `info->Action`). -/
def actionToEventType (action : Nat) : FileEventType :=
  if action = FILE_ACTION_ADDED ∨ action = FILE_ACTION_RENAMED_NEW_NAME then
    FileEventType.created
  else if action = FILE_ACTION_REMOVED ∨ action = FILE_ACTION_RENAMED_OLD_NAME then
    FileEventType.removed
  else if action = FILE_ACTION_MODIFIED then
    FileEventType.modified
  else
    FileEventType.unknown

/-- `WatchPoint::handlePathChanged`, as the pair of arguments it passes to
`Server::reportEvent`: the normalized type and the changed path. -/
def handlePathChanged (path : List Nat) (info : FileNotifyInfo) :
    FileEventType × List Nat :=
  (actionToEventType info.action, changedPathOf path info.fileName)

/-- The observable outcome of one run of `WatchPoint::handleEvent`:
the WatchPoint status it leaves behind, the `Server::reportEvent` calls it
makes in order, whether it calls `Server::reportFinished`, and whether it
re-arms the read by calling `listen()`. -/
structure HandleEventResult where
  status : WatchStatus
  events : List (FileEventType × List Nat)
  finishedReported : Bool
  rearmed : Bool
deriving Repr, DecidableEq

/-- `WatchPoint::listen` issues `ReadDirectoryChangesW` and publishes the
status: `WATCH_LISTENING` on success, `WATCH_FAILED_TO_LISTEN` on failure.
Whether the OS call succeeds is a parameter of the model. -/
def listenStatus (listenSucceeds : Bool) : WatchStatus :=
  if listenSucceeds then WatchStatus.listening else WatchStatus.failedToListen

/-- `WatchPoint::handleEvent` on a completion with error code `errorCode`
transferring `bytesTransferred` bytes, the buffer holding `records`
(the `NextEntryOffset` chain).  On `ERROR_OPERATION_ABORTED` it sets
`WATCH_FINISHED`, reports finished and returns.  Otherwise a zero-byte
transfer reports a single `FILE_EVENT_INVALIDATE` on the watched root and
a non-zero transfer walks the records through `handlePathChanged`; then it
calls `listen()` and, if the status is not `WATCH_LISTENING`, reports
finished. -/
def handleEvent (path : List Nat) (records : List FileNotifyInfo)
    (errorCode : Nat) (bytesTransferred : Nat) (listenSucceeds : Bool) :
    HandleEventResult :=
  if errorCode = ERROR_OPERATION_ABORTED then
    { status := WatchStatus.finished
      events := []
      finishedReported := true
      rearmed := false }
  else
    let evs :=
      if bytesTransferred = 0 then
        [(FileEventType.invalidate, path)]
      else
        records.map (handlePathChanged path)
    let st := listenStatus listenSucceeds
    { status := st
      events := evs
      finishedReported := !listenSucceeds
      rearmed := true }

/-- A WatchPoint as the Server sees it: `id` models the C++ pointer
identity (distinct WatchPoints have distinct ids), `path` the watched
root, `status` the lifecycle status. -/
structure WatchPointM where
  id : Nat
  path : List Nat
  status : WatchStatus
deriving Repr, DecidableEq

/-- One observable OS-level action performed during termination:
setting the Server's terminate flag, `CancelIo` on a WatchPoint's
directory handle, `CloseHandle` on it, or `delete watchPoint`. -/
inductive TermOp where
  | setTerminate
  | cancelIo (id : Nat)
  | closeHandle (id : Nat)
  | destroy (id : Nat)
deriving Repr, DecidableEq

/-- The Server state the claims are about: the terminate flag and the
`watchPoints` list (`std::list<WatchPoint*>`). -/
structure ServerState where
  terminate : Bool
  watchPoints : List WatchPointM
deriving Repr, DecidableEq

/-- `WatchPoint::close`: `CancelIo(directoryHandle)` followed by
`CloseHandle(directoryHandle)`, as the trace of the two calls. -/
def WatchPointM.closeOps (wp : WatchPointM) : List TermOp :=
  [TermOp.cancelIo wp.id, TermOp.closeHandle wp.id]

/-- `Server::requestTermination` (the body of the termination APC):
sets `terminate = true`, then iterates a copy of `watchPoints` calling
`WatchPoint::close` on each.  Returned with the new state is the ordered
trace of actions performed. -/
def requestTermination (s : ServerState) : ServerState × List TermOp :=
  ({ s with terminate := true },
    TermOp.setTerminate :: s.watchPoints.flatMap WatchPointM.closeOps)

/-- The loop condition of `Server::run`:
`while (!terminate || watchPoints.size() > 0) SleepEx(INFINITE, true);`. -/
def runLoopContinues (s : ServerState) : Bool :=
  !s.terminate || decide (0 < s.watchPoints.length)

/-- `Server::reportFinished`: `watchPoints.remove(watchPoint)` removes
every list element equal to the pointer (all occurrences of that
identity), then `delete watchPoint`.  The trace records the deletion. -/
def reportFinished (s : ServerState) (wp : WatchPointM) :
    ServerState × List TermOp :=
  ({ s with watchPoints := s.watchPoints.filter (fun w => !(w.id == wp.id)) },
    [TermOp.destroy wp.id])

/-- The observable outcome of one call to `Server::startWatching`:
whether the `startWatchCallback` APC was queued on the run-loop thread
(and the caller then blocked on `listenerStarted`), the status published
by the APC that the wait observed, whether the WatchPoint was appended to
`watchPoints`, and whether it was destroyed instead. -/
structure StartWatchingResult where
  apcScheduled : Bool
  publishedStatus : Option WatchStatus
  added : Bool
  destroyed : Bool
deriving Repr, DecidableEq

/-- `Server::startWatching`: `CreateFileW` opens the directory (success is
the `handleOk` parameter; on failure the function logs and returns).  A
fresh WatchPoint (pointer identity `freshId`) is created, then
`awaitListeningStarted` queues the `startWatchCallback` APC and blocks on
the `listenerStarted` condition variable until `listen()` publishes
`WATCH_LISTENING` or `WATCH_FAILED_TO_LISTEN` (success of
`ReadDirectoryChangesW` is the `listenSucceeds` parameter).  On
`WATCH_LISTENING` the WatchPoint is appended to `watchPoints`; in every
other case it is deleted. -/
def startWatching (s : ServerState) (freshId : Nat) (path : List Nat)
    (handleOk : Bool) (listenSucceeds : Bool) :
    ServerState × StartWatchingResult :=
  if !handleOk then
    (s, { apcScheduled := false
          publishedStatus := none
          added := false
          destroyed := false })
  else
    let st := listenStatus listenSucceeds
    if st = WatchStatus.listening then
      ({ s with watchPoints := s.watchPoints ++ [⟨freshId, path, st⟩] },
        { apcScheduled := true
          publishedStatus := some st
          added := true
          destroyed := false })
    else
      (s, { apcScheduled := true
            publishedStatus := some st
            added := false
            destroyed := true })

/-- After `requestTermination` has cancelled the I/O of every WatchPoint,
each subsequent alertable wait of the run-loop delivers an
`ERROR_OPERATION_ABORTED` completion whose handler calls
`Server::reportFinished`, removing that WatchPoint.  `drainLoop` iterates
this until the list is empty or the fuel runs out. -/
def drainLoop : ServerState → Nat → ServerState
  | s, 0 => s
  | s, n + 1 =>
    match s.watchPoints with
    | [] => s
    | wp :: _ => drainLoop (reportFinished s wp).1 n

/-- `Server::close`: queues `requestTerminationCallback` as an APC on the
run-loop thread, then `watcherThread.join()` — an unconditional wait until
the run-loop has drained every WatchPoint and exited.  The C++ function
takes no timeout; the `timeoutMs` parameter carries the argument the
claimed interface would pass, and the function ignores it.  Returned are
the state after the join and the number of drain steps the join blocked
for. -/
def Server_close (s : ServerState) (_timeoutMs : Nat) : ServerState × Nat :=
  let s' := (requestTermination s).1
  (drainLoop s' s'.watchPoints.length, s'.watchPoints.length)

/-- The result of the JNI entry point
`Java_..._WindowsFileEventFunctions_startWatching`: the message passed to
`mark_failed_with_errno` if any, whether the call returned `NULL`, and
whether `new Server(...)` ran (its constructor starts the run-loop
thread). -/
structure JniStartResult where
  failedMessage : Option String
  returnedNull : Bool
  serverConstructed : Bool
deriving Repr, DecidableEq

/-- The JNI entry point `WindowsFileEventFunctions_startWatching`:
`GetJavaVM` failure (success is the `jvmOk` parameter) marks the result
failed with "Could not store JVM instance." and returns `NULL`; an empty
`paths` array marks it failed with "No paths given to watch." and returns
`NULL`; otherwise a `Server` is constructed and a watcher object
returned. -/
def startWatchingJni (jvmOk : Bool) (paths : List (List Nat)) :
    JniStartResult :=
  if !jvmOk then
    { failedMessage := some "Could not store JVM instance."
      returnedNull := true
      serverConstructed := false }
  else if paths.length = 0 then
    { failedMessage := some "No paths given to watch."
      returnedNull := true
      serverConstructed := false }
  else
    { failedMessage := none
      returnedNull := false
      serverConstructed := true }

/-- An ASCII drive letter (`A`-`Z` or `a`-`z`) as a UTF-16 code unit. -/
def isDriveLetterCode (d : Nat) : Bool :=
  (65 ≤ d && d ≤ 90) || (97 ≤ d && d ≤ 122)

/-- An absolute Windows path: either a UNC/long path starting `\\`
(which covers the `\\?\` long-path form) or a drive-letter path `X:\...`
(an ASCII letter, `':'`, `'\\'`). -/
def isAbsolutePath (p : List Nat) : Bool :=
  (decide (2 ≤ p.length) && (p.getD 0 0 == 92) && (p.getD 1 0 == 92)) ||
  (decide (3 ≤ p.length) && isDriveLetterCode (p.getD 0 0) &&
    (p.getD 1 0 == 58) && (p.getD 2 0 == 92))

/-- Errors of the watcher-level contract. -/
inductive WatcherError where
  | alreadyWatching
  | alreadyClosed
deriving Repr, DecidableEq

/-- Modelled from the spec: the watcher wrapper that tracks which paths
are registered and whether the watcher is closed.  The layer implementing
it (the Java `WatcherImpl` raising "Already watching path: ..." and
"Closed already", asserted by the repository's tests) is not under the
sources; `watched` is the set of registered paths and `closed` the
already-closed flag. -/
structure WatcherState where
  watched : List (List Nat)
  closed : Bool
deriving Repr, DecidableEq

/-- Modelled from the spec: `Watcher.startWatching(p)` "fails with
`AlreadyWatching` if a path is already registered"; otherwise the path is
registered. -/
def Watcher_startWatching (w : WatcherState) (p : List Nat) :
    WatcherState × Option WatcherError :=
  if p ∈ w.watched then
    (w, some WatcherError.alreadyWatching)
  else
    ({ w with watched := w.watched ++ [p] }, none)

/-- Modelled from the spec: `Watcher.close` performs the shutdown once and
"fails with `AlreadyClosed` if called twice"; the returned `Bool` records
whether a shutdown was performed by this call. -/
def Watcher_close (w : WatcherState) :
    WatcherState × Option WatcherError × Bool :=
  if w.closed then
    (w, some WatcherError.alreadyClosed, false)
  else
    ({ w with closed := true }, none, true)

/-! ## Helper lemmas -/

/-- Appending anything to an absolute path keeps it absolute: the
decision only inspects the first three code units, which an append
preserves. -/
lemma isAbsolutePath_append (root xs : List Nat)
    (h : isAbsolutePath root = true) :
    isAbsolutePath (root ++ xs) = true := by
  unfold isAbsolutePath at h ⊢
  rw [Bool.or_eq_true] at h ⊢
  rcases h with h | h
  · left
    rw [Bool.and_eq_true, Bool.and_eq_true] at h
    obtain ⟨⟨hlen, h0⟩, h1⟩ := h
    have hl : 2 ≤ root.length := of_decide_eq_true hlen
    rw [Bool.and_eq_true, Bool.and_eq_true]
    refine ⟨⟨?_, ?_⟩, ?_⟩
    · exact decide_eq_true (by rw [List.length_append]; omega)
    · rw [List.getD_append _ _ _ _ (by omega)]; exact h0
    · rw [List.getD_append _ _ _ _ (by omega)]; exact h1
  · right
    rw [Bool.and_eq_true, Bool.and_eq_true, Bool.and_eq_true] at h
    obtain ⟨⟨⟨hlen, h0⟩, h1⟩, h2⟩ := h
    have hl : 3 ≤ root.length := of_decide_eq_true hlen
    rw [Bool.and_eq_true, Bool.and_eq_true, Bool.and_eq_true]
    refine ⟨⟨⟨?_, ?_⟩, ?_⟩, ?_⟩
    · exact decide_eq_true (by rw [List.length_append]; omega)
    · rw [List.getD_append _ _ _ _ (by omega)]; exact h0
    · rw [List.getD_append _ _ _ _ (by omega)]; exact h1
    · rw [List.getD_append _ _ _ _ (by omega)]; exact h2

/-- `drainLoop` never touches the terminate flag. -/
lemma drainLoop_terminate (n : Nat) (s : ServerState) :
    (drainLoop s n).terminate = s.terminate := by
  induction n generalizing s with
  | zero => rfl
  | succ n ih =>
    unfold drainLoop
    cases hw : s.watchPoints with
    | nil => rfl
    | cons wp rest => rw [ih]; rfl

/-- Given fuel at least the number of WatchPoints, `drainLoop` removes
them all: each step removes at least the head WatchPoint. -/
lemma drainLoop_empty (n : Nat) (s : ServerState)
    (h : s.watchPoints.length ≤ n) :
    (drainLoop s n).watchPoints = [] := by
  induction n generalizing s with
  | zero =>
    have : s.watchPoints = [] :=
      List.length_eq_zero.mp (Nat.le_zero.mp h)
    unfold drainLoop
    exact this
  | succ n ih =>
    unfold drainLoop
    cases hw : s.watchPoints with
    | nil => exact hw
    | cons wp rest =>
      apply ih
      have hfil :
          ((wp :: rest).filter (fun w => !(w.id == wp.id))).length
            ≤ rest.length := by
        rw [List.filter_cons]
        simp only [beq_self_eq_true, Bool.not_true, if_neg]
        · exact List.length_filter_le _ rest
      have hr : rest.length + 1 ≤ n + 1 := by
        rw [hw] at h; simpa using h
      simp only [reportFinished, hw]
      omega

/-! ## Claims -/

/-- C1: for every directory-change record, the normalized ChangeType
`WatchPoint::handlePathChanged` reports to the server is: CREATED for
`FILE_ACTION_ADDED` or `FILE_ACTION_RENAMED_NEW_NAME`, REMOVED for
`FILE_ACTION_REMOVED` or `FILE_ACTION_RENAMED_OLD_NAME`, MODIFIED for
`FILE_ACTION_MODIFIED`, and UNKNOWN for any other action code. -/
theorem c1_action_normalization (path : List Nat) (info : FileNotifyInfo) :
    ((info.action = FILE_ACTION_ADDED ∨
        info.action = FILE_ACTION_RENAMED_NEW_NAME) →
      (handlePathChanged path info).1 = FileEventType.created) ∧
    ((info.action = FILE_ACTION_REMOVED ∨
        info.action = FILE_ACTION_RENAMED_OLD_NAME) →
      (handlePathChanged path info).1 = FileEventType.removed) ∧
    (info.action = FILE_ACTION_MODIFIED →
      (handlePathChanged path info).1 = FileEventType.modified) ∧
    (info.action ∉ [FILE_ACTION_ADDED, FILE_ACTION_REMOVED,
        FILE_ACTION_MODIFIED, FILE_ACTION_RENAMED_OLD_NAME,
        FILE_ACTION_RENAMED_NEW_NAME] →
      (handlePathChanged path info).1 = FileEventType.unknown) := by
  refine ⟨?_, ?_, ?_, ?_⟩ <;> intro h
  · rcases h with h | h <;>
      simp [handlePathChanged, actionToEventType, h, FILE_ACTION_ADDED,
        FILE_ACTION_REMOVED, FILE_ACTION_MODIFIED,
        FILE_ACTION_RENAMED_OLD_NAME, FILE_ACTION_RENAMED_NEW_NAME]
  · rcases h with h | h <;>
      simp [handlePathChanged, actionToEventType, h, FILE_ACTION_ADDED,
        FILE_ACTION_REMOVED, FILE_ACTION_MODIFIED,
        FILE_ACTION_RENAMED_OLD_NAME, FILE_ACTION_RENAMED_NEW_NAME]
  · simp [handlePathChanged, actionToEventType, h, FILE_ACTION_ADDED,
      FILE_ACTION_REMOVED, FILE_ACTION_MODIFIED,
      FILE_ACTION_RENAMED_OLD_NAME, FILE_ACTION_RENAMED_NEW_NAME]
  · simp only [List.mem_cons, List.not_mem_nil, or_false, not_or,
      FILE_ACTION_ADDED, FILE_ACTION_REMOVED, FILE_ACTION_MODIFIED,
      FILE_ACTION_RENAMED_OLD_NAME, FILE_ACTION_RENAMED_NEW_NAME] at h
    obtain ⟨h1, h2, h3, h4, h5⟩ := h
    simp [handlePathChanged, actionToEventType, FILE_ACTION_ADDED,
      FILE_ACTION_REMOVED, FILE_ACTION_MODIFIED,
      FILE_ACTION_RENAMED_OLD_NAME, FILE_ACTION_RENAMED_NEW_NAME,
      h1, h2, h3, h4, h5]

/-- Witness for C1 at the five concrete action codes 1, 2, 3 and 17. -/
theorem c1_action_normalization_witness :
    (handlePathChanged [] ⟨1, [97]⟩).1 = FileEventType.created ∧
    (handlePathChanged [] ⟨2, [97]⟩).1 = FileEventType.removed ∧
    (handlePathChanged [] ⟨3, [97]⟩).1 = FileEventType.modified ∧
    (handlePathChanged [] ⟨17, [97]⟩).1 = FileEventType.unknown :=
  ⟨(c1_action_normalization [] ⟨1, [97]⟩).1 (Or.inl rfl),
   (c1_action_normalization [] ⟨2, [97]⟩).2.1 (Or.inl rfl),
   (c1_action_normalization [] ⟨3, [97]⟩).2.2.1 rfl,
   (c1_action_normalization [] ⟨17, [97]⟩).2.2.2 (by decide)⟩

/-- C2: `Server::requestTermination` (the termination APC body) leaves
the terminate flag set, its action trace begins with setting that flag
and thereafter contains `CancelIo` and `CloseHandle` for every registered
WatchPoint; and the run-loop condition of `Server::run` is false exactly
when the terminate flag is set and the WatchPoint list is empty. -/
theorem c2_termination_protocol (s : ServerState) :
    (requestTermination s).1.terminate = true ∧
    (requestTermination s).2.head? = some TermOp.setTerminate ∧
    (∀ wp ∈ s.watchPoints,
      TermOp.cancelIo wp.id ∈ (requestTermination s).2.tail ∧
      TermOp.closeHandle wp.id ∈ (requestTermination s).2.tail) ∧
    (∀ t : ServerState,
      runLoopContinues t = false ↔
        (t.terminate = true ∧ t.watchPoints = [])) := by
  refine ⟨rfl, rfl, ?_, ?_⟩
  · intro wp hwp
    constructor <;>
    · simp only [requestTermination, List.tail_cons, List.mem_flatMap]
      exact ⟨wp, hwp, by simp [WatchPointM.closeOps]⟩
  · intro t
    simp only [runLoopContinues, Bool.or_eq_false_iff, Bool.not_eq_false',
      decide_eq_false_iff_not, Nat.not_lt, Nat.le_zero,
      List.length_eq_zero]

/-- Witness for C2 on a server with one registered WatchPoint. -/
theorem c2_termination_protocol_witness :
    TermOp.cancelIo 7 ∈
      (requestTermination ⟨false, [⟨7, [99], WatchStatus.listening⟩]⟩).2.tail ∧
    TermOp.closeHandle 7 ∈
      (requestTermination ⟨false, [⟨7, [99], WatchStatus.listening⟩]⟩).2.tail :=
  (c2_termination_protocol ⟨false, [⟨7, [99], WatchStatus.listening⟩]⟩).2.2.1
    ⟨7, [99], WatchStatus.listening⟩ (by simp)

/-- C3 counterexample: a zero-byte completion whose error code is
`ERROR_OPERATION_ABORTED` reports no event at all and does not re-arm
the read — `WatchPoint::handleEvent` returns before the overflow branch —
so "every zero-byte completion reports one INVALIDATED and re-arms"
fails at this input. -/
theorem c3_zero_byte_counterexample :
    ¬ ((handleEvent [99] [] ERROR_OPERATION_ABORTED 0 true).events
        = [(FileEventType.invalidate, [99])] ∧
       (handleEvent [99] [] ERROR_OPERATION_ABORTED 0 true).rearmed
        = true) := by
  decide

/-- C3 (amended): for every completion that transfers zero bytes and
whose error code is not `ERROR_OPERATION_ABORTED`,
`WatchPoint::handleEvent` reports exactly one INVALIDATED event whose
path is the watched root, and re-arms the read. -/
theorem c3_zero_byte_invalidate (path : List Nat)
    (records : List FileNotifyInfo) (errorCode : Nat)
    (listenSucceeds : Bool) (h : errorCode ≠ ERROR_OPERATION_ABORTED) :
    (handleEvent path records errorCode 0 listenSucceeds).events
      = [(FileEventType.invalidate, path)] ∧
    (handleEvent path records errorCode 0 listenSucceeds).rearmed
      = true := by
  unfold handleEvent
  rw [if_neg h]
  simp

/-- Witness for C3 at a successful zero-byte completion. -/
theorem c3_zero_byte_invalidate_witness :
    (handleEvent [99] [] 0 0 true).events
      = [(FileEventType.invalidate, [99])] ∧
    (handleEvent [99] [] 0 0 true).rearmed = true :=
  c3_zero_byte_invalidate [99] [] 0 true (by decide)

/-- C4: a completion with error code `ERROR_OPERATION_ABORTED` leaves
the WatchPoint in status `WATCH_FINISHED`, reports no event for that
completion, calls `Server::reportFinished`; and `Server::reportFinished`
removes the WatchPoint from the server's collection (no element with its
identity remains) and destroys it. -/
theorem c4_aborted_completion (path : List Nat)
    (records : List FileNotifyInfo) (bytesTransferred : Nat)
    (listenSucceeds : Bool) (s : ServerState) (wp : WatchPointM) :
    (handleEvent path records ERROR_OPERATION_ABORTED bytesTransferred
        listenSucceeds).status = WatchStatus.finished ∧
    (handleEvent path records ERROR_OPERATION_ABORTED bytesTransferred
        listenSucceeds).events = [] ∧
    (handleEvent path records ERROR_OPERATION_ABORTED bytesTransferred
        listenSucceeds).finishedReported = true ∧
    (∀ w ∈ (reportFinished s wp).1.watchPoints, w.id ≠ wp.id) ∧
    TermOp.destroy wp.id ∈ (reportFinished s wp).2 := by
  refine ⟨by simp [handleEvent], by simp [handleEvent],
    by simp [handleEvent], ?_, by simp [reportFinished]⟩
  intro w hw
  simp only [reportFinished, List.mem_filter, Bool.not_eq_true',
    beq_eq_false_iff_ne, ne_eq] at hw
  exact hw.2

/-- Witness for C4: on a server with two WatchPoints, after
`reportFinished` on the first, the remaining one has a different
identity. -/
theorem c4_aborted_completion_witness :
    (handleEvent [99] [] ERROR_OPERATION_ABORTED 3 true).status
      = WatchStatus.finished ∧
    (8 : Nat) ≠ (7 : Nat) :=
  ⟨(c4_aborted_completion [99] [] 3 true
      ⟨false, [⟨7, [99], WatchStatus.listening⟩,
               ⟨8, [100], WatchStatus.listening⟩]⟩
      ⟨7, [99], WatchStatus.listening⟩).1,
   (c4_aborted_completion [99] [] 3 true
      ⟨false, [⟨7, [99], WatchStatus.listening⟩,
               ⟨8, [100], WatchStatus.listening⟩]⟩
      ⟨7, [99], WatchStatus.listening⟩).2.2.2.1
      ⟨8, [100], WatchStatus.listening⟩ (by decide)⟩

/-- C5 counterexample: when `CreateFileW` fails, `Server::startWatching`
logs and returns before any WatchPoint exists — no startWatch APC is
queued, no status published, nothing added and nothing destroyed — so
"every path registration schedules a startWatch APC ... and otherwise
the WatchPoint is destroyed" fails at such a registration. -/
theorem c5_handle_failure_counterexample :
    ¬ ((startWatching ⟨false, []⟩ 7 [99] false true).2.apcScheduled
        = true ∧
       ((startWatching ⟨false, []⟩ 7 [99] false true).2.added = true ↔
        (startWatching ⟨false, []⟩ 7 [99] false true).2.publishedStatus
          = some WatchStatus.listening) ∧
       ((startWatching ⟨false, []⟩ 7 [99] false true).2.added = false →
        (startWatching ⟨false, []⟩ 7 [99] false true).2.destroyed
          = true)) := by
  decide

/-- C5 (amended): for every path registration whose `CreateFileW` call
opens the directory handle, `Server::startWatching` queues the
startWatch APC and blocks until the status published by
`WatchPoint::listen` is observed; it appends the WatchPoint to
`watchPoints` exactly when the published status is `WATCH_LISTENING`,
and otherwise destroys it leaving the collection unchanged.  When
`CreateFileW` fails, `startWatching` returns without scheduling an APC,
adding or destroying anything. -/
theorem c5_registration_protocol (s : ServerState) (freshId : Nat)
    (path : List Nat) (handleOk listenSucceeds : Bool) :
    (handleOk = true →
      ((startWatching s freshId path handleOk listenSucceeds).2.apcScheduled
        = true) ∧
      ((startWatching s freshId path handleOk
          listenSucceeds).2.publishedStatus
        = some (listenStatus listenSucceeds)) ∧
      ((startWatching s freshId path handleOk listenSucceeds).2.added
          = true ↔
        (startWatching s freshId path handleOk
            listenSucceeds).2.publishedStatus
          = some WatchStatus.listening) ∧
      ((startWatching s freshId path handleOk listenSucceeds).2.added
          = true →
        (startWatching s freshId path handleOk
            listenSucceeds).1.watchPoints
          = s.watchPoints ++ [⟨freshId, path, WatchStatus.listening⟩]) ∧
      ((startWatching s freshId path handleOk listenSucceeds).2.added
          = false →
        (startWatching s freshId path handleOk listenSucceeds).2.destroyed
          = true ∧
        (startWatching s freshId path handleOk listenSucceeds).1 = s)) ∧
    (handleOk = false →
      (startWatching s freshId path handleOk listenSucceeds).2 =
        { apcScheduled := false
          publishedStatus := none
          added := false
          destroyed := false } ∧
      (startWatching s freshId path handleOk listenSucceeds).1 = s) := by
  cases handleOk <;> cases listenSucceeds <;>
    simp [startWatching, listenStatus]

/-- Witness for C5 (amended) at all three outcomes: a successful listen
adds the WatchPoint, a failed listen destroys it, and a failed
`CreateFileW` does nothing. -/
theorem c5_registration_protocol_witness :
    ((startWatching ⟨false, []⟩ 7 [99] true true).1.watchPoints
      = [] ++ [⟨7, [99], WatchStatus.listening⟩]) ∧
    ((startWatching ⟨false, []⟩ 7 [99] true false).2.destroyed = true ∧
      (startWatching ⟨false, []⟩ 7 [99] true false).1 = ⟨false, []⟩) ∧
    ((startWatching ⟨false, []⟩ 7 [99] false true).2 =
        { apcScheduled := false
          publishedStatus := none
          added := false
          destroyed := false } ∧
      (startWatching ⟨false, []⟩ 7 [99] false true).1 = ⟨false, []⟩) :=
  ⟨((c5_registration_protocol ⟨false, []⟩ 7 [99] true true).1
      rfl).2.2.2.1 (by decide),
   ((c5_registration_protocol ⟨false, []⟩ 7 [99] true false).1
      rfl).2.2.2.2 (by decide),
   (c5_registration_protocol ⟨false, []⟩ 7 [99] false true).2 rfl⟩

/-- C6: registering a path that is already registered on the watcher
fails with `AlreadyWatching` and leaves the watcher's set of watched
paths unchanged. -/
theorem c6_duplicate_registration (w : WatcherState) (p : List Nat)
    (h : p ∈ w.watched) :
    (Watcher_startWatching w p).2 = some WatcherError.alreadyWatching ∧
    (Watcher_startWatching w p).1 = w := by
  simp [Watcher_startWatching, h]

/-- Witness for C6: a second registration of the same path fails. -/
theorem c6_duplicate_registration_witness :
    (Watcher_startWatching ⟨[[97]], false⟩ [97]).2
      = some WatcherError.alreadyWatching ∧
    (Watcher_startWatching ⟨[[97]], false⟩ [97]).1 = ⟨[[97]], false⟩ :=
  c6_duplicate_registration ⟨[[97]], false⟩ [97] (by decide)

/-- C7: closing a watcher that has already been closed fails with
`AlreadyClosed`, performs no second shutdown, and leaves the state
unchanged. -/
theorem c7_double_close (w : WatcherState) (h : w.closed = false) :
    (Watcher_close (Watcher_close w).1).2.1
      = some WatcherError.alreadyClosed ∧
    (Watcher_close (Watcher_close w).1).2.2 = false ∧
    (Watcher_close (Watcher_close w).1).1 = (Watcher_close w).1 := by
  simp [Watcher_close, h]

/-- Witness for C7 on a freshly opened watcher. -/
theorem c7_double_close_witness :
    (Watcher_close (Watcher_close ⟨[], false⟩).1).2.1
      = some WatcherError.alreadyClosed ∧
    (Watcher_close (Watcher_close ⟨[], false⟩).1).2.2 = false ∧
    (Watcher_close (Watcher_close ⟨[], false⟩).1).1
      = (Watcher_close ⟨[], false⟩).1 :=
  c7_double_close ⟨[], false⟩ rfl

/-- C8 counterexample: `Server::close` does not wait "at most the given
timeout": with timeout 0 on a server holding one WatchPoint, the
unconditional `watcherThread.join()` still blocks for the full drain
(one step here), so the claimed bound fails. -/
theorem c8_timeout_counterexample :
    ¬ ((Server_close ⟨false, [⟨7, [99], WatchStatus.listening⟩]⟩ 0).2
        ≤ 0) := by
  decide

/-- C8 (amended): `Server::close` takes no timeout and returns no
drained/timed-out indicator: it requests termination and then joins the
run-loop thread unconditionally — the wait is the same for every timeout
value, lasts the full drain of all registered WatchPoints, and when it
returns the run-loop has exited (terminate set and no WatchPoints
left). -/
theorem c8_close_joins_unconditionally (s : ServerState) (t t' : Nat) :
    (Server_close s t).2 = (Server_close s t').2 ∧
    (Server_close s t).2 = s.watchPoints.length ∧
    runLoopContinues (Server_close s t).1 = false := by
  refine ⟨rfl, rfl, ?_⟩
  have hterm : (Server_close s t).1.terminate = true := by
    simp only [Server_close]
    rw [drainLoop_terminate]
    rfl
  have hempty : (Server_close s t).1.watchPoints = [] := by
    simp only [Server_close]
    exact drainLoop_empty _ _ (Nat.le_refl _)
  simp [runLoopContinues, hterm, hempty]

/-- C9 counterexample: a record with an empty file name is delivered
with the empty path — `handlePathChanged` only prepends the watched root
when the name is non-empty — which is neither the root joined with the
name nor an absolute path. -/
theorem c9_empty_name_counterexample :
    ¬ (isAbsolutePath [67, 58, 92, 114] = true →
       ((handlePathChanged [67, 58, 92, 114] ⟨3, []⟩).2
          = [67, 58, 92, 114] ++ backslash :: ([] : List Nat) ∧
        isAbsolutePath (handlePathChanged [67, 58, 92, 114] ⟨3, []⟩).2
          = true)) := by
  decide

/-- C9 (amended): for every directory-change record with a non-empty
file name, the path `WatchPoint::handlePathChanged` delivers to
`Server::reportEvent` is the watched root joined with the record's file
name by a backslash, and is absolute whenever the watched root is; a
record with an empty file name is delivered with the empty path
instead. -/
theorem c9_delivered_paths_absolute (root : List Nat)
    (info : FileNotifyInfo) (hn : info.fileName ≠ [])
    (ha : isAbsolutePath root = true) :
    (handlePathChanged root info).2 = root ++ backslash :: info.fileName ∧
    isAbsolutePath (handlePathChanged root info).2 = true ∧
    (handlePathChanged root ⟨info.action, []⟩).2 = [] := by
  have hpath : (handlePathChanged root info).2
      = root ++ backslash :: info.fileName := by
    simp [handlePathChanged, changedPathOf, hn]
  refine ⟨hpath, ?_, by simp [handlePathChanged, changedPathOf]⟩
  rw [hpath]
  exact isAbsolutePath_append root (backslash :: info.fileName) ha

/-- Witness for C9 (amended) at root `C:\r` and file name `a`. -/
theorem c9_delivered_paths_absolute_witness :
    (handlePathChanged [67, 58, 92, 114] ⟨1, [97]⟩).2
      = [67, 58, 92, 114] ++ backslash :: [97] ∧
    isAbsolutePath (handlePathChanged [67, 58, 92, 114] ⟨1, [97]⟩).2
      = true ∧
    (handlePathChanged [67, 58, 92, 114] ⟨1, []⟩).2 = [] :=
  c9_delivered_paths_absolute [67, 58, 92, 114] ⟨1, [97]⟩
    (by decide) (by decide)

/-- C10: the JNI `startWatching` entry point, called with a working JNI
environment and an empty array of paths, marks the result failed with
"No paths given to watch." and returns `NULL` without constructing a
`Server` (hence without starting a run-loop thread). -/
theorem c10_empty_paths (jvmOk : Bool) (h : jvmOk = true) :
    startWatchingJni jvmOk [] =
      { failedMessage := some "No paths given to watch."
        returnedNull := true
        serverConstructed := false } := by
  subst h
  rfl

/-- Witness for C10 at a working JNI environment. -/
theorem c10_empty_paths_witness :
    startWatchingJni true [] =
      { failedMessage := some "No paths given to watch."
        returnedNull := true
        serverConstructed := false } :=
  c10_empty_paths true rfl

end WinFsNotifier
